import Mathlib

/-!
Verification development for a token-gated browser streaming client.

The repository contains several near-duplicate script variants:
* `script.js`   — the "enhanced secure" variant (modelled in namespace `SJ`)
* `part_000`    — the class-based `PrivateStreamingApp` variant (namespace `P0`)
* `part_001`    — the "balanced" variant (namespace `P1`)
* `part_002`    — two scripts: an older inline variant and an `api.js`-based
                  variant (namespace `P2`)
* `api.js`      — the `StreamingAPI` / `TokenStorage` helper classes (namespace `Api`)

Each definition below is a shallow embedding of the corresponding JavaScript
function; external collaborators (fetch, the HLS library, the socket transport,
interval timers) are represented by explicit outcome parameters and event lists.
-/

/-! # Definitions -/

/-! ## Chat transcript (addChatMessage in three variants) -/

namespace SJ

/-- `script.js` `addChatMessage`: append the new message element, then
`if (messages.length > 100) messages[0].remove()`. -/
def addChatMessage {α : Type} (msgs : List α) (m : α) : List α :=
  let appended := msgs ++ [m]
  if 100 < appended.length then appended.tail else appended

end SJ

namespace P0

/-- `part_000` `PrivateStreamingApp.addChatMessage` trimming loop:
`while (chatMessages.children.length > 100) chatMessages.removeChild(firstChild)`. -/
def trimChat {α : Type} (l : List α) : List α :=
  if 100 < l.length then trimChat l.tail else l
termination_by l.length
decreasing_by
  rw [List.length_tail]
  omega

/-- `part_000` `addChatMessage`: append the message element, then run the
trimming `while` loop. -/
def addChatMessage {α : Type} (msgs : List α) (m : α) : List α :=
  trimChat (msgs ++ [m])

end P0

namespace P2

/-- `part_002` (first script) `addChatMessage`: appends the message element and
scrolls; it contains no eviction logic at all. -/
def addChatMessage {α : Type} (msgs : List α) (m : α) : List α :=
  msgs ++ [m]

end P2

/-! ## escapeHtml (part_000's map-based implementation) -/

namespace P0

/-- The replacement table of `part_000` `escapeHtml`:
`& → "&amp;"`, `< → "&lt;"`, `> → "&gt;"`, `" → "&quot;"`, `' → "&#039;"`,
every other character is left unchanged. -/
def escapeChar (c : Char) : List Char :=
  if c = '&' then ['&', 'a', 'm', 'p', ';']
  else if c = '<' then ['&', 'l', 't', ';']
  else if c = '>' then ['&', 'g', 't', ';']
  else if c = '"' then ['&', 'q', 'u', 'o', 't', ';']
  else if c = '\'' then ['&', '#', '0', '3', '9', ';']
  else [c]

/-- The global regex replace `String(text).replace(/[&<>"']/g, m => map[m])`. -/
def escapeList (l : List Char) : List Char :=
  (l.map escapeChar).flatten

/-- `part_000` `PrivateStreamingApp.escapeHtml`, including the
`if (!text) return ""` guard (the empty string is falsy in JavaScript). -/
def escapeHtml (s : String) : String :=
  if s = "" then "" else String.mk (escapeList s.toList)

/-- A character that may appear literally in escaped output: anything except
`<`, `>`, `"`, `'`. -/
def isSafeChar (c : Char) : Bool :=
  !(c == '<' || c == '>' || c == '"' || c == '\'')

/-- After an `&`, the remaining characters must begin one of the five entity
bodies `amp;`, `lt;`, `gt;`, `quot;`, `#039;`. -/
def startsEntity (l : List Char) : Bool :=
  ['a', 'm', 'p', ';'].isPrefixOf l || ['l', 't', ';'].isPrefixOf l ||
  ['g', 't', ';'].isPrefixOf l || ['q', 'u', 'o', 't', ';'].isPrefixOf l ||
  ['#', '0', '3', '9', ';'].isPrefixOf l

/-- Every occurrence of `&` in the list begins one of the five entities. -/
def ampOK : List Char → Bool
  | [] => true
  | c :: rest => (if c = '&' then startsEntity rest else true) && ampOK rest

end P0

/-! ## Backend Gateway Client (api.js `StreamingAPI`) -/

namespace Api

/-- A JSON-like JavaScript value. -/
inductive JVal where
  | str (s : String)
  | bool (b : Bool)
  | num (n : Int)
  | arr (elems : List JVal)
  | obj (fields : List (String × JVal))
  | nullv

/-- The `name` of a thrown JavaScript error. -/
inductive ErrName where
  | typeError
  | syntaxError
  | error
  | tokenValidationError
  deriving DecidableEq

/-- A thrown JavaScript error: its `name` and `message`. -/
structure JsError where
  name : ErrName
  msg : String
  deriving DecidableEq

/-- Transport-level outcome of one `fetch` call: network failure (a
`TypeError`), a non-2xx response, a 2xx response whose body is not JSON
(`response.json()` throws), or a 2xx response with a parsed JSON body. -/
inductive TransportOutcome where
  | netError (msg : String)
  | httpError (status : Nat) (statusText : String)
  | okMalformed (parseMsg : String)
  | okJson (body : JVal)

/-- `StreamingAPI.makeRequest`: throws on network error, throws
`HTTP status: statusText` on a non-ok response, propagates the JSON parse
error, and otherwise returns the parsed body. -/
def makeRequest : TransportOutcome → Except JsError JVal
  | .netError m => .error ⟨.typeError, m⟩
  | .httpError s t => .error ⟨.error, s!"HTTP {s}: {t}"⟩
  | .okMalformed m => .error ⟨.syntaxError, m⟩
  | .okJson j => .ok j

/-- `StreamingAPI.validateToken`: returns the response, or on any thrown error
returns `{valid: false, error: error.message}`. -/
def validateToken (o : TransportOutcome) : Except JsError JVal :=
  match makeRequest o with
  | .ok r => .ok r
  | .error e => .ok (.obj [("valid", .bool false), ("error", .str e.msg)])

/-- `StreamingAPI.getM3ULinks`: returns the response, or on any thrown error
returns `{success: false, error: error.message}`. -/
def getM3ULinks (o : TransportOutcome) : Except JsError JVal :=
  match makeRequest o with
  | .ok r => .ok r
  | .error e => .ok (.obj [("success", .bool false), ("error", .str e.msg)])

/-- `StreamingAPI.markTokenUsed`: returns the response, or on any thrown error
returns `{success: false, error: error.message}`. -/
def markTokenUsed (o : TransportOutcome) : Except JsError JVal :=
  match makeRequest o with
  | .ok r => .ok r
  | .error e => .ok (.obj [("success", .bool false), ("error", .str e.msg)])

/-- `StreamingAPI.checkDevice`: returns the response, or on any thrown error
returns `{allowed: false, error: error.message}`. -/
def checkDevice (o : TransportOutcome) : Except JsError JVal :=
  match makeRequest o with
  | .ok r => .ok r
  | .error e => .ok (.obj [("allowed", .bool false), ("error", .str e.msg)])

/-- The three transport failure modes named by the claim. -/
def isTransportFailure : TransportOutcome → Bool
  | .okJson _ => false
  | _ => true

/-- The error message each transport failure produces. -/
def failureMsg : TransportOutcome → String
  | .netError m => m
  | .httpError s t => s!"HTTP {s}: {t}"
  | .okMalformed m => m
  | .okJson _ => ""

/-- Browser web storage: `localStorage` and `sessionStorage` as key-value maps. -/
structure Storage where
  localS : String → Option String
  sessionS : String → Option String

/-- `storage.setItem(key, value)`. -/
def setItem (f : String → Option String) (k v : String) : String → Option String :=
  fun q => if q = k then some v else f q

/-- `TokenStorage.setToken`: writes the token under `streaming_access_token`
into both `localStorage` and `sessionStorage`. -/
def TokenStorage.setToken (t : String) (st : Storage) : Storage :=
  ⟨setItem st.localS "streaming_access_token" t,
   setItem st.sessionS "streaming_access_token" t⟩

/-- `TokenStorage.setDeviceFingerprint`: writes the fingerprint under
`device_fingerprint` into both storages. -/
def TokenStorage.setDeviceFingerprint (fp : String) (st : Storage) : Storage :=
  ⟨setItem st.localS "device_fingerprint" fp,
   setItem st.sessionS "device_fingerprint" fp⟩

end Api

/-! ## script.js control-plane calls, failover sequencer and initialization -/

namespace SJ

/-- The backend's validate-token JSON body as read by the client:
`valid`, and the optional `error` / `message` fields. -/
structure ValidateResponse where
  valid : Bool
  error : Option String
  message : Option String
  deriving DecidableEq

/-- JavaScript `a || b` on an optional string field: `undefined`, `null`
and `""` are all falsy. -/
def jsOr (a : Option String) (b : String) : String :=
  match a with
  | some s => if s = "" then b else s
  | none => b

/-- Outcome of one attempt of the `validate-token` fetch in `script.js`. -/
inductive VOutcome where
  | netErr (msg : String)
  | httpErr (status : Nat) (statusText : String)
  | badJson (msg : String)
  | jsonOk (resp : ValidateResponse)

/-- The `try` block of `script.js` `validateToken`: throws on network error,
throws `HTTP status: statusText` when `!response.ok`, propagates the JSON
parse error, and throws a `TokenValidationError` carrying
`data.error || data.message || 'Token tidak valid atau sudah kedaluwarsa'`
when `!data.valid`. -/
def vtTry : VOutcome → Except Api.JsError ValidateResponse
  | .netErr m => .error ⟨.typeError, m⟩
  | .httpErr s t => .error ⟨.error, s!"HTTP {s}: {t}"⟩
  | .badJson m => .error ⟨.syntaxError, m⟩
  | .jsonOk r =>
    if r.valid then .ok r
    else .error ⟨.tokenValidationError,
      jsOr r.error (jsOr r.message "Token tidak valid atau sudah kedaluwarsa")⟩

/-- JavaScript `hay.includes(needle)` on strings, as a scan over suffixes. -/
def listIncludes (needle : List Char) : List Char → Bool
  | [] => needle.isEmpty
  | c :: rest => needle.isPrefixOf (c :: rest) || listIncludes needle rest

/-- The retry condition of `script.js` `validateToken`:
`error.name === 'TypeError' || error.message.includes('fetch')`. -/
def retryable (e : Api.JsError) : Bool :=
  (e.name == Api.ErrName.typeError) || listIncludes "fetch".toList e.msg.toList

/-- Result of running `validateToken` to completion: the value or the error
finally thrown, the total number of fetch attempts, and the list of backoff
delays awaited between attempts (in ms). -/
structure VTRes where
  result : Except Api.JsError ValidateResponse
  attempts : Nat
  delays : List Nat

/-- `script.js` `validateToken(token, retryCount)`: on a retryable error with
`retryCount < 2` it waits `1000 * (retryCount + 1)` ms and recurses with
`retryCount + 1`; otherwise it rethrows. `out k` is the transport outcome of
the `k`-th attempt. -/
def validateToken (out : Nat → VOutcome) (retryCount : Nat) : VTRes :=
  match vtTry (out retryCount) with
  | .ok r => ⟨.ok r, 1, []⟩
  | .error e =>
    if h : retryCount < 2 ∧ retryable e = true then
      let r := validateToken out (retryCount + 1)
      ⟨r.result, r.attempts + 1, 1000 * (retryCount + 1) :: r.delays⟩
    else ⟨.error e, 1, []⟩
termination_by 2 - retryCount
decreasing_by
  omega

/-- Result of a control-plane call that never retries: the outcome plus the
number of fetch attempts it made. -/
structure OneShotRes (α : Type) where
  result : Except Api.JsError α
  attempts : Nat

/-- Outcome of the single `mark-token-used` fetch (its body is parsed without
checking `response.ok`). -/
inductive MUOutcome where
  | netErr (msg : String)
  | badJson (msg : String)
  | body (success : Bool) (message : Option String)

/-- `script.js` `markTokenUsed`: a single fetch; throws on network error or a
non-JSON body; throws `data.message || 'Gagal menandai token sebagai
digunakan'` when `!data.success`. The `catch` block rethrows, so there is no
retry. -/
def markTokenUsed : MUOutcome → OneShotRes Unit
  | .netErr m => ⟨.error ⟨.typeError, m⟩, 1⟩
  | .badJson m => ⟨.error ⟨.syntaxError, m⟩, 1⟩
  | .body s msg =>
    if s then ⟨.ok (), 1⟩
    else ⟨.error ⟨.error, jsOr msg "Gagal menandai token sebagai digunakan"⟩, 1⟩

/-- A stream link `{url, name}` (the priority field is never read by the
failover loop). -/
structure Link where
  url : String
  name : String
  deriving DecidableEq

/-- Outcome of the single `get-m3u-links` fetch. -/
inductive GMOutcome where
  | netErr (msg : String)
  | badJson (msg : String)
  | body (success : Bool) (links : Option (List Link))

/-- `script.js` `getM3uLinks`: a single fetch; throws
`'Tidak ada stream yang tersedia saat ini'` when
`!data.success || !data.links || data.links.length === 0`. The `catch`
rethrows, so there is no retry. -/
def getM3uLinks : GMOutcome → OneShotRes (List Link)
  | .netErr m => ⟨.error ⟨.typeError, m⟩, 1⟩
  | .badJson m => ⟨.error ⟨.syntaxError, m⟩, 1⟩
  | .body s links =>
    match links with
    | none => ⟨.error ⟨.error, "Tidak ada stream yang tersedia saat ini"⟩, 1⟩
    | some ls =>
      if s ∧ ls.length ≠ 0 then ⟨.ok ls, 1⟩
      else ⟨.error ⟨.error, "Tidak ada stream yang tersedia saat ini"⟩, 1⟩

/-- Type of a fatal HLS error (`Hls.ErrorTypes`). -/
inductive HlsErrTy where
  | network
  | media
  | other
  deriving DecidableEq

/-- The message shown by the `Hls.Events.ERROR` handler in `initHlsPlayer`
for each fatal error type. -/
def hlsErrorMessage : HlsErrTy → String
  | .network => "❌ Kesalahan jaringan. Periksa koneksi internet Anda dan coba lagi."
  | .media => "❌ Kesalahan media. Format stream tidak didukung oleh browser Anda."
  | .other => "❌ Terjadi kesalahan saat memuat stream. Silakan refresh halaman."

/-- The outcome of waiting for one candidate after `initHlsPlayer`:
the video reaches `playing`; a fatal HLS error occurs (the error handler shows
a message, and the wait rejects); the 15 s timeout fires with neither; or the
preliminary `HEAD` fetch of the url throws before the player is touched. -/
inductive COutcome where
  | playing
  | fatal (ty : HlsErrTy)
  | timeout
  | headErr
  deriving DecidableEq

/-- Decoding-session events: session `i` is attached and loads candidate `i`;
session `i` is destroyed. -/
inductive PEv where
  | load (i : Nat)
  | destroy (i : Nat)
  deriving DecidableEq

/-- The player-side module state of `script.js`: the attached `hls` instance
(identified by its candidate index), `currentM3uLink`, the sequence of
`showError` messages, and the session event trace. -/
structure PlayerState where
  hls : Option Nat
  currentM3uLink : Option String
  shownErrors : List String
  trace : List PEv
  deriving DecidableEq

/-- Module state at page load: `hls = null`, `currentM3uLink = null`. -/
def initialPlayer : PlayerState := ⟨none, none, [], []⟩

/-- `script.js` `initHlsPlayer` (HLS-supported path): `if (hls) hls.destroy()`
then create a new instance, `loadSource`, `attachMedia`. -/
def initHlsPlayer (i : Nat) (st : PlayerState) : PlayerState :=
  { st with
    hls := some i
    trace := st.trace ++ (match st.hls with
      | some j => [PEv.destroy j]
      | none => []) ++ [PEv.load i] }

/-- The terminal error thrown by `loadStreamWithFailover` when its last
candidate fails. -/
def termMsg : String := "Semua stream gagal dimuat. Silakan coba lagi nanti."

/-- Result of the failover loop: normal return, or a thrown error together
with the player state at the moment of the throw. -/
inductive FailoverResult where
  | ok (st : PlayerState)
  | err (msg : String) (st : PlayerState)
  deriving DecidableEq

/-- `script.js` `loadStreamWithFailover`: for each candidate in order, test
the url, call `initHlsPlayer(link.url)`, set `currentM3uLink`, and wait for
`playing` (return) or an error / timeout (continue; throw `termMsg` if this
was the last candidate). A fatal HLS error additionally invokes `showError`
from the player's error handler. `i` is the index of the current candidate. -/
def loadStreamWithFailover (st : PlayerState) (i : Nat) :
    List (Link × COutcome) → FailoverResult
  | [] => .ok st
  | (link, o) :: rest =>
    match o with
    | .headErr =>
      if rest.isEmpty then .err termMsg st
      else loadStreamWithFailover st (i + 1) rest
    | .playing => .ok { initHlsPlayer i st with currentM3uLink := some link.url }
    | .fatal ty =>
      let st2 := { initHlsPlayer i st with currentM3uLink := some link.url }
      let st3 := { st2 with shownErrors := st2.shownErrors ++ [hlsErrorMessage ty] }
      if rest.isEmpty then .err termMsg st3
      else loadStreamWithFailover st3 (i + 1) rest
    | .timeout =>
      let st2 := { initHlsPlayer i st with currentM3uLink := some link.url }
      if rest.isEmpty then .err termMsg st2
      else loadStreamWithFailover st2 (i + 1) rest

/-- The environment of one `script.js` page run: the URL token and the
transport outcomes of each stage. -/
structure Env where
  token : Option String
  vOut : Nat → VOutcome
  muOut : MUOutcome
  gmOut : GMOutcome
  linkOutcomes : List COutcome

/-- Observable result of `initializeApp`: every `showError` message in order,
the final player state, and which later stages were reached. -/
structure AppRun where
  shownErrors : List String
  player : PlayerState
  markUsedCalled : Bool
  m3uRequested : Bool
  socketOpened : Bool
  deriving DecidableEq

/-- `script.js` `initializeApp`: token from URL, `validateToken`,
`markTokenUsed`, `getM3uLinks`, `loadStreamWithFailover`, `initSocket`; any
thrown error is caught and passed to `showError`. -/
def initializeAppRun (env : Env) : AppRun :=
  match env.token with
  | none =>
    ⟨["❌ Token tidak ditemukan dalam URL. Pastikan Anda mengakses link yang benar."],
     initialPlayer, false, false, false⟩
  | some _ =>
    match (validateToken env.vOut 0).result with
    | .error e => ⟨[e.msg], initialPlayer, false, false, false⟩
    | .ok _ =>
      match (markTokenUsed env.muOut).result with
      | .error e => ⟨[e.msg], initialPlayer, true, false, false⟩
      | .ok _ =>
        match (getM3uLinks env.gmOut).result with
        | .error e => ⟨[e.msg], initialPlayer, true, true, false⟩
        | .ok links =>
          match loadStreamWithFailover initialPlayer 0 (links.zip env.linkOutcomes) with
          | .ok st => ⟨st.shownErrors, st, true, true, true⟩
          | .err m st => ⟨st.shownErrors ++ [m], st, true, true, false⟩

end SJ

/-! ## part_001 failover (the "balanced" variant) -/

namespace P1

/-- Outcome of waiting for one candidate in `part_001`: `playing` resolves;
`canplay` resolves and shows the play button; the 10 s timeout *resolves*
("Don't reject, just resolve"); a fatal HLS error shows a message and the
wait rejects. -/
inductive C1Outcome where
  | playing
  | canplay
  | timeout
  | fatal (ty : SJ.HlsErrTy)
  deriving DecidableEq

/-- The observable player state of `part_001`. -/
structure Player1 where
  hls : Option Nat
  currentM3uLink : Option String
  shownErrors : List String
  playButton : Bool
  deriving DecidableEq

/-- Module state at page load. -/
def initialPlayer1 : Player1 := ⟨none, none, [], false⟩

/-- `part_001` `loadStreamWithFailover`: like `script.js` but with no HEAD
test; on failure of the *last* candidate it does not throw — it hides the
loading overlay, shows the play button and returns. The function therefore
never throws. -/
def loadStreamWithFailover (st : Player1) (i : Nat) :
    List (SJ.Link × C1Outcome) → Player1
  | [] => st
  | (link, o) :: rest =>
    let st2 : Player1 := { st with hls := some i, currentM3uLink := some link.url }
    match o with
    | .playing => st2
    | .canplay => { st2 with playButton := true }
    | .timeout => st2
    | .fatal ty =>
      let st3 := { st2 with shownErrors := st2.shownErrors ++ [SJ.hlsErrorMessage ty] }
      if rest.isEmpty then { st3 with playButton := true }
      else loadStreamWithFailover st3 (i + 1) rest

end P1

/-! ## part_000 realtime channel: heartbeat timers and message ordering -/

namespace P0

/-- Trace events of the realtime channel: the transport connect event, the
`join_stream` emission, the `joined_stream` acknowledgment, a `heartbeat`
emission, and the transport disconnect event. -/
inductive TEv where
  | connected
  | joinEmitted
  | joinedReceived
  | heartbeatEmitted
  | disconnected
  deriving DecidableEq

/-- `hasConn t`: the trace contains a transport connect event. -/
def hasConn : List TEv → Bool
  | [] => false
  | .connected :: _ => true
  | _ :: rest => hasConn rest

/-- `hasJoined t`: the trace contains a `joined_stream` acknowledgment. -/
def hasJoined : List TEv → Bool
  | [] => false
  | .joinedReceived :: _ => true
  | _ :: rest => hasJoined rest

/-- `scanOK c j t`: scanning `t` left to right (having already seen a connect
iff `c` and a join acknowledgment iff `j`), every `join_stream` emission is
preceded by a connect and every heartbeat emission is preceded by a
`joined_stream` acknowledgment. -/
def scanOK (c j : Bool) : List TEv → Bool
  | [] => true
  | .connected :: rest => scanOK true j rest
  | .joinEmitted :: rest => c && scanOK c j rest
  | .joinedReceived :: rest => scanOK c true rest
  | .heartbeatEmitted :: rest => j && scanOK c j rest
  | .disconnected :: rest => scanOK c j rest

/-- External events delivered to `PrivateStreamingApp`: socket `connect`,
socket `disconnect`, the `joined_stream` acknowledgment, page hidden/visible,
a fresh `connectWebSocket` call (from `handleConnectionRestored`, which first
manually disconnects any existing socket), and a timer tick of interval `id`. -/
inductive Ev where
  | connect
  | disconnect
  | joined
  | hidden
  | visible
  | reconnectWS
  | tick (id : Nat)
  deriving DecidableEq

/-- The `PrivateStreamingApp` state relevant to heartbeats: a fresh-id
counter, the set of live interval timers, the `this.heartbeatInterval`
field, `this.isConnected`, and the channel trace. -/
structure App where
  nextId : Nat
  live : List Nat
  heartbeatInterval : Option Nat
  isConnected : Bool
  trace : List TEv
  deriving DecidableEq

/-- Constructor state: no socket, no timer. -/
def App.init : App := ⟨0, [], none, false, []⟩

/-- `clearHeartbeat`: `clearInterval(this.heartbeatInterval)` and null the
field, when set. -/
def clearHeartbeat (a : App) : App :=
  match a.heartbeatInterval with
  | some id => { a with live := a.live.erase id, heartbeatInterval := none }
  | none => a

/-- `setInterval(...)` for the heartbeat callback: registers a fresh live
timer and stores its id in `this.heartbeatInterval`. -/
def setIntervalHb (a : App) : App :=
  { a with
    live := a.live ++ [a.nextId]
    heartbeatInterval := some a.nextId
    nextId := a.nextId + 1 }

/-- `startHeartbeat`: `this.clearHeartbeat()` then `setInterval(..., 15000)`. -/
def startHeartbeat (a : App) : App :=
  setIntervalHb (clearHeartbeat a)

/-- `handlePageHidden`: if a heartbeat interval exists, `clearInterval` it and
start a slower (30 s) one, overwriting the field. -/
def handlePageHidden (a : App) : App :=
  match a.heartbeatInterval with
  | some id => setIntervalHb { a with live := a.live.erase id }
  | none => a

/-- `handlePageVisible`: if a heartbeat interval exists, `clearInterval` it
and call `startHeartbeat()`. -/
def handlePageVisible (a : App) : App :=
  match a.heartbeatInterval with
  | some id => startHeartbeat { a with live := a.live.erase id }
  | none => a

/-- One event step of `PrivateStreamingApp`:
* `connect` handler: set `isConnected` and emit `join_stream`;
* `disconnect` handler: unset `isConnected` and `clearHeartbeat`;
* `joined_stream` handler: `startHeartbeat`;
* visibility handlers as above;
* `connectWebSocket` re-entry: manually disconnect the old socket (which fires
  its `disconnect` handler) before creating a new one;
* a tick of interval `id`: emit `heartbeat` iff the timer is live and
  `this.socket && this.isConnected`. -/
def step (a : App) : Ev → App
  | .connect => { a with isConnected := true, trace := a.trace ++ [.connected, .joinEmitted] }
  | .disconnect => clearHeartbeat { a with isConnected := false, trace := a.trace ++ [.disconnected] }
  | .joined => startHeartbeat { a with trace := a.trace ++ [.joinedReceived] }
  | .hidden => handlePageHidden a
  | .visible => handlePageVisible a
  | .reconnectWS => clearHeartbeat { a with isConnected := false, trace := a.trace ++ [.disconnected] }
  | .tick id =>
    if id ∈ a.live ∧ a.isConnected then { a with trace := a.trace ++ [.heartbeatEmitted] }
    else a

/-- Run a sequence of events from a state. -/
def run (a : App) (evs : List Ev) : App :=
  evs.foldl step a

end P0

/-! ## script.js realtime channel (initSocket) -/

namespace SJ

/-- External events for the `script.js` socket layer: the `initSocket()` call,
socket connect/disconnect, and a tick of interval `id`. -/
inductive SockEv where
  | initSocket
  | connect
  | disconnect
  | tick (id : Nat)
  deriving DecidableEq

/-- The `script.js` socket state: fresh-id counter, live heartbeat interval
timers, `socket.connected`, and the channel trace. -/
structure SockState where
  nextId : Nat
  live : List Nat
  connected : Bool
  trace : List P0.TEv
  deriving DecidableEq

/-- Page-load state. -/
def SockState.init : SockState := ⟨0, [], false, []⟩

/-- One event step of the `script.js` socket layer:
* `initSocket` creates the socket and unconditionally calls
  `setInterval(..., 30000)` for the heartbeat, storing no handle;
* the `connect` handler emits `join_stream`;
* the `disconnect` handler only updates the status display — no timer is
  cleared;
* a tick of a live interval emits `heartbeat` iff `socket && socket.connected`. -/
def sockStep (s : SockState) : SockEv → SockState
  | .initSocket => { s with live := s.live ++ [s.nextId], nextId := s.nextId + 1, connected := false }
  | .connect => { s with connected := true, trace := s.trace ++ [.connected, .joinEmitted] }
  | .disconnect => { s with connected := false, trace := s.trace ++ [.disconnected] }
  | .tick id =>
    if id ∈ s.live ∧ s.connected then { s with trace := s.trace ++ [.heartbeatEmitted] }
    else s

/-- Run a sequence of events from a state. -/
def runSocket (s : SockState) (evs : List SockEv) : SockState :=
  evs.foldl sockStep s

/-- Only the join-after-connect part of the ordering check (the heartbeat
emissions are unconstrained). -/
def scanJoinOnly (c : Bool) : List P0.TEv → Bool
  | [] => true
  | .connected :: rest => scanJoinOnly true rest
  | .joinEmitted :: rest => c && scanJoinOnly c rest
  | _ :: rest => scanJoinOnly c rest

end SJ

/-! ## part_000 validateTokenAndStart -/

namespace P0

/-- Outcome of `fetchJSON` on `/validate-token` in `part_000`: network/abort
rejection, a non-JSON body (throws `'Respon bukan JSON valid'`), a non-ok
response (throws `json.error || 'HTTP status'`), or a parsed ok body. -/
inductive FOutcome where
  | netErr (msg : String)
  | badJson
  | httpErr (status : Nat) (jsonError : Option String)
  | jsonOk (resp : SJ.ValidateResponse)

/-- `part_000` `fetchJSON` applied to `/validate-token`. -/
def fetchJSONValidate : FOutcome → Except Api.JsError SJ.ValidateResponse
  | .netErr m => .error ⟨.typeError, m⟩
  | .badJson => .error ⟨.error, "Respon bukan JSON valid"⟩
  | .httpErr s je => .error ⟨.error, SJ.jsOr je s!"HTTP {s}"⟩
  | .jsonOk r => .ok r

/-- Observable result of `validateTokenAndStart`: the `showError` message (if
any) and which follow-up actions ran. -/
structure StartRun where
  shownError : Option String
  markUsedCalled : Bool
  loadStreamCalled : Bool
  socketConnected : Bool
  deriving DecidableEq

/-- `part_000` `PrivateStreamingApp.validateTokenAndStart`: on `result.valid`
it fires `markTokenUsed`, `loadStream` and `connectWebSocket`; otherwise it
shows `result.error || 'Token tidak valid.'`; a thrown error shows
`error.message || 'Kesalahan jaringan. Periksa koneksi internet Anda.'`. -/
def validateTokenAndStart (o : FOutcome) : StartRun :=
  match fetchJSONValidate o with
  | .error e =>
    ⟨some (SJ.jsOr (some e.msg) "Kesalahan jaringan. Periksa koneksi internet Anda."),
     false, false, false⟩
  | .ok r =>
    if r.valid then ⟨none, true, true, true⟩
    else ⟨some (SJ.jsOr r.error "Token tidak valid."), false, false, false⟩

/-- `part_000` `initializeUI` username persistence: read
`localStorage.streaming_username`, fall back to a generated name, and write it
back under the same key. Nothing else is persisted. -/
def initUI (genName : String) (st : Api.Storage) : Api.Storage × String :=
  let u := SJ.jsOr (st.localS "streaming_username") genName
  ({ st with localS := Api.setItem st.localS "streaming_username" u }, u)

end P0

/-! ## part_002 validateAccessToken (the api.js-based variant) -/

namespace P2

/-- The `check-device` response `{allowed, error?}`. -/
structure DeviceCheck where
  allowed : Bool
  error : Option String

/-- The `mark-token-used` response `{success}`. -/
structure MarkResp where
  success : Bool

/-- `part_002` (second script) `validateAccessToken`: device check, token
validation, mark-used, and on full success `TokenStorage.setToken(token)` and
`TokenStorage.setDeviceFingerprint(fp)`. Returns whether access was granted
and the resulting web storage. -/
def validateAccessToken (token fp : String) (dc : DeviceCheck)
    (v : SJ.ValidateResponse) (mk : MarkResp) (st : Api.Storage) :
    Bool × Api.Storage :=
  if ¬dc.allowed ∧ dc.error ≠ some "Token not found" then (false, st)
  else if ¬v.valid then (false, st)
  else if ¬mk.success then (false, st)
  else (true, Api.TokenStorage.setDeviceFingerprint fp (Api.TokenStorage.setToken token st))

end P2

/-! ## Concrete example inputs used by counterexamples and witnesses -/

namespace Ex

/-- Empty web storage. -/
def emptyStorage : Api.Storage := ⟨fun _ => none, fun _ => none⟩

/-- A page environment whose control plane succeeds and whose single stream
candidate fails with a fatal network error. -/
def envOneFatal : SJ.Env :=
  { token := some "tok"
    vOut := fun _ => SJ.VOutcome.jsonOk ⟨true, none, none⟩
    muOut := SJ.MUOutcome.body true none
    gmOut := SJ.GMOutcome.body true (some [⟨"http://a.example/live.m3u8", "A"⟩])
    linkOutcomes := [SJ.COutcome.fatal SJ.HlsErrTy.network] }

/-- A page environment carrying a token that the backend reports as expired. -/
def envExpired : SJ.Env :=
  { token := some "abc123"
    vOut := fun _ => SJ.VOutcome.jsonOk ⟨false, some "expired", none⟩
    muOut := SJ.MUOutcome.body true none
    gmOut := SJ.GMOutcome.body true (some [⟨"http://a.example/live.m3u8", "A"⟩])
    linkOutcomes := [SJ.COutcome.playing] }

/-- An environment whose every validate-token attempt fails at the network
level. -/
def envAllNet : Nat → SJ.VOutcome := fun _ => SJ.VOutcome.netErr "Failed to fetch"

end Ex


/-! ## Trace-ordering helpers for the failover sequencer -/

namespace SJ

/-- `Precedes t a b`: event `a` occurs in `t` strictly before an occurrence
of event `b`. -/
def Precedes (t : List PEv) (a b : PEv) : Prop :=
  ∃ t1 t2 t3, t = t1 ++ a :: t2 ++ b :: t3

/-- The session-event trace produced by `n` consecutive candidate attempts
starting at candidate index `i` with `h` the initially attached session:
each attempt destroys the previously attached session (if any) and loads the
next candidate. -/
def attemptTrace : Option Nat → Nat → Nat → List PEv
  | _, _, 0 => []
  | h, i, n + 1 =>
    (match h with
      | some j => [PEv.destroy j]
      | none => []) ++ PEv.load i :: attemptTrace (some i) (i + 1) n

end SJ

namespace Ex

/-- First example stream link. -/
def linkA : SJ.Link := ⟨"http://a.example/live.m3u8", "A"⟩

/-- Second example stream link. -/
def linkB : SJ.Link := ⟨"http://b.example/live.m3u8", "B"⟩

/-- A one-candidate prefix that fails with a fatal network error. -/
def psOneFatal : List (SJ.Link × SJ.COutcome) :=
  [(linkA, SJ.COutcome.fatal SJ.HlsErrTy.network)]

end Ex

/-! # Helper lemmas -/

theorem P0.trimChat_eq_drop {α : Type} :
    ∀ (n : Nat) (l : List α), l.length ≤ n →
      P0.trimChat l = l.drop (l.length - 100)
  | 0, l, hl => by
    have : l = [] := List.eq_nil_of_length_eq_zero (Nat.le_zero.mp hl)
    subst this
    simp [P0.trimChat]
  | n + 1, l, hl => by
    rw [P0.trimChat]
    by_cases h : 100 < l.length
    · have htail : l.tail.length ≤ n := by
        rw [List.length_tail]
        omega
      rw [if_pos h, P0.trimChat_eq_drop n l.tail htail]
      have h1 : l.tail = l.drop 1 := (List.drop_one l).symm
      rw [h1, List.drop_drop]
      congr 1
      have := List.length_drop 1 l
      omega
    · rw [if_neg h]
      have : l.length - 100 = 0 := by omega
      rw [this, List.drop_zero]

theorem P0.escapeList_safe (l : List Char) :
    (P0.escapeList l).all P0.isSafeChar = true ∧ P0.ampOK (P0.escapeList l) = true := by
  induction l with
  | nil => simp [P0.escapeList, P0.ampOK]
  | cons c rest ih =>
    have hstep : P0.escapeList (c :: rest) = P0.escapeChar c ++ P0.escapeList rest := by
      simp [P0.escapeList]
    rw [hstep]
    unfold P0.escapeChar
    obtain ⟨ih1, ih2⟩ := ih
    split_ifs with h1 h2 h3 h4 h5 <;>
      simp_all [P0.ampOK, P0.startsEntity, List.isPrefixOf, P0.isSafeChar]

theorem P2.foldl_addChatMessage_length :
    ∀ (l acc : List Nat),
      (l.foldl P2.addChatMessage acc).length = acc.length + l.length := by
  intro l
  induction l with
  | nil => simp
  | cons x t ih =>
    intro acc
    rw [List.foldl_cons, ih]
    simp [P2.addChatMessage]
    omega

/-! # Claim theorems -/

/-- C10: for every input string, `part_000`'s `escapeHtml` returns a string in
which `<`, `>`, `"` and `'` never occur literally, and every occurrence of `&`
begins one of the entities `&amp;`, `&lt;`, `&gt;`, `&quot;`, `&#039;` — so
chat usernames and messages inserted through it cannot introduce markup. -/
theorem C10_escapeHtml_sanitizes (s : String) :
    (P0.escapeHtml s).toList.all P0.isSafeChar = true ∧
    P0.ampOK (P0.escapeHtml s).toList = true := by
  unfold P0.escapeHtml
  by_cases h : s = ""
  · rw [if_pos h]
    constructor <;> rfl
  · rw [if_neg h]
    have hmk : (String.mk (P0.escapeList s.toList)).toList = P0.escapeList s.toList := rfl
    rw [hmk]
    exact P0.escapeList_safe s.toList

/-- C7 counterexample: in the `part_002` variant, feeding 101 chat messages
into an initially empty transcript leaves all 101 in the transcript — the
100-message cap is not enforced by that variant's `addChatMessage`, refuting
the claim that after every call the transcript holds at most 100 messages. -/
theorem C7_counterexample_p2_unbounded :
    ((List.range 101).foldl P2.addChatMessage ([] : List Nat)).length = 101 ∧
    ¬ ((List.range 101).foldl P2.addChatMessage ([] : List Nat)).length ≤ 100 := by
  rw [P2.foldl_addChatMessage_length]
  simp

/-- C7 amended: the `script.js` variant preserves the 100-message cap with
FIFO eviction (appending to a transcript of 100 drops exactly the oldest
message and keeps the survivors in order), and the `part_000` variant caps any
transcript at 100 by dropping the oldest entries; the `part_002` variant
appends without any eviction. -/
theorem C7_amended_cap_fifo :
    (∀ (msgs : List Nat) (m : Nat), msgs.length ≤ 100 →
      (SJ.addChatMessage msgs m).length ≤ 100 ∧
      (msgs.length < 100 → SJ.addChatMessage msgs m = msgs ++ [m]) ∧
      (msgs.length = 100 → SJ.addChatMessage msgs m = msgs.tail ++ [m])) ∧
    (∀ (msgs : List Nat) (m : Nat),
      (P0.addChatMessage msgs m).length ≤ 100 ∧
      P0.addChatMessage msgs m = (msgs ++ [m]).drop (msgs.length + 1 - 100)) := by
  constructor
  · intro msgs m hle
    unfold SJ.addChatMessage
    by_cases h : 100 < (msgs ++ [m]).length
    · have hlen : msgs.length = 100 := by
        simp at h
        omega
      rw [if_pos h]
      refine ⟨?_, by omega, fun _ => ?_⟩
      · rw [List.length_tail]
        simp
        omega
      · cases msgs with
        | nil => simp at hlen
        | cons a t => simp
    · have hlt : msgs.length < 100 := by
        simp at h
        omega
      rw [if_neg h]
      refine ⟨by simp; omega, fun _ => rfl, fun hc => by omega⟩
  · intro msgs m
    have hdrop := P0.trimChat_eq_drop (msgs ++ [m]).length (msgs ++ [m]) le_rfl
    unfold P0.addChatMessage
    rw [hdrop]
    constructor
    · rw [List.length_drop]
      simp
      omega
    · congr 1
      simp

/-- Witness for the amended C7 at a concrete transcript of exactly 100
messages. -/
theorem C7_amended_witness :
    (List.range 100).length ≤ 100 ∧
    (SJ.addChatMessage (List.range 100) 7).length ≤ 100 ∧
    SJ.addChatMessage (List.range 100) 7 = (List.range 100).tail ++ [7] :=
  ⟨by simp,
   (C7_amended_cap_fifo.1 (List.range 100) 7 (by simp)).1,
   (C7_amended_cap_fifo.1 (List.range 100) 7 (by simp)).2.2 (by simp)⟩

/-- C8: every `StreamingAPI` operation returns (never throws), and on each of
the three transport failure modes — network error, non-2xx status, malformed
body — it returns the uniform object with its boolean flag `false` and the
error message. -/
theorem C8_api_uniform_errors (o : Api.TransportOutcome) :
    (∃ v, Api.validateToken o = .ok v) ∧
    (∃ v, Api.getM3ULinks o = .ok v) ∧
    (∃ v, Api.markTokenUsed o = .ok v) ∧
    (∃ v, Api.checkDevice o = .ok v) ∧
    (Api.isTransportFailure o = true →
      Api.validateToken o =
        .ok (.obj [("valid", .bool false), ("error", .str (Api.failureMsg o))]) ∧
      Api.getM3ULinks o =
        .ok (.obj [("success", .bool false), ("error", .str (Api.failureMsg o))]) ∧
      Api.markTokenUsed o =
        .ok (.obj [("success", .bool false), ("error", .str (Api.failureMsg o))]) ∧
      Api.checkDevice o =
        .ok (.obj [("allowed", .bool false), ("error", .str (Api.failureMsg o))])) := by
  cases o <;>
    simp [Api.validateToken, Api.getM3ULinks, Api.markTokenUsed, Api.checkDevice,
      Api.makeRequest, Api.isTransportFailure, Api.failureMsg]

/-- Witness for C8 at a concrete network failure. -/
theorem C8_witness :
    Api.isTransportFailure (Api.TransportOutcome.netError "Failed to fetch") = true ∧
    Api.validateToken (Api.TransportOutcome.netError "Failed to fetch") =
      .ok (.obj [("valid", Api.JVal.bool false),
                 ("error", Api.JVal.str "Failed to fetch")]) :=
  ⟨rfl,
   ((C8_api_uniform_errors (Api.TransportOutcome.netError "Failed to fetch")).2.2.2.2 rfl).1⟩

/-- C6 counterexample: in the api.js-based variant, a successful validation of
the URL token `"abc123"` writes it into both `localStorage` and
`sessionStorage` under `streaming_access_token` — refuting the claim that the
session token is never written to web storage. -/
theorem C6_counterexample_token_persisted :
    (P2.validateAccessToken "abc123" "fp" ⟨true, none⟩ ⟨true, none, none⟩ ⟨true⟩
        Ex.emptyStorage).1 = true ∧
    (P2.validateAccessToken "abc123" "fp" ⟨true, none⟩ ⟨true, none, none⟩ ⟨true⟩
        Ex.emptyStorage).2.localS "streaming_access_token" = some "abc123" ∧
    (P2.validateAccessToken "abc123" "fp" ⟨true, none⟩ ⟨true, none, none⟩ ⟨true⟩
        Ex.emptyStorage).2.sessionS "streaming_access_token" = some "abc123" := by
  refine ⟨?_, ?_, ?_⟩ <;>
    simp [P2.validateAccessToken, Api.TokenStorage.setToken,
      Api.TokenStorage.setDeviceFingerprint, Api.setItem, Ex.emptyStorage]

/-- C6 amended: the `part_000` variant persists only the generated display
name (its UI setup touches no key other than `streaming_username`, and never
`sessionStorage`), but the api.js-based variant writes the URL token itself to
both storages whenever validation succeeds. -/
theorem C6_amended_storage :
    (∀ (token fp : String) (dc : P2.DeviceCheck) (v : SJ.ValidateResponse)
       (mk : P2.MarkResp) (st : Api.Storage),
      (P2.validateAccessToken token fp dc v mk st).1 = true →
      (P2.validateAccessToken token fp dc v mk st).2.localS "streaming_access_token"
          = some token ∧
      (P2.validateAccessToken token fp dc v mk st).2.sessionS "streaming_access_token"
          = some token) ∧
    (∀ (g k : String) (st : Api.Storage), k ≠ "streaming_username" →
      (P0.initUI g st).1.localS k = st.localS k) ∧
    (∀ (g : String) (st : Api.Storage), (P0.initUI g st).1.sessionS = st.sessionS) := by
  refine ⟨?_, ?_, ?_⟩
  · intro token fp dc v mk st h
    unfold P2.validateAccessToken at h ⊢
    split_ifs at h ⊢ with h1 h2 h3
    simp_all [Api.TokenStorage.setToken, Api.TokenStorage.setDeviceFingerprint,
      Api.setItem]
  · intro g k st hk
    simp [P0.initUI, Api.setItem, hk]
  · intro g st
    rfl

/-- Witness for the amended C6 at concrete inputs. -/
theorem C6_amended_witness :
    (P2.validateAccessToken "abc123" "fp" ⟨true, none⟩ ⟨true, none, none⟩ ⟨true⟩
        Ex.emptyStorage).1 = true ∧
    (P2.validateAccessToken "abc123" "fp" ⟨true, none⟩ ⟨true, none, none⟩ ⟨true⟩
        Ex.emptyStorage).2.sessionS "streaming_access_token" = some "abc123" ∧
    ("viewer_theme" ≠ "streaming_username") ∧
    (P0.initUI "CoolViewer1" Ex.emptyStorage).1.localS "viewer_theme" =
      Ex.emptyStorage.localS "viewer_theme" := by
  refine ⟨?_, ?_, ?_, ?_⟩
  · simp [P2.validateAccessToken, Api.TokenStorage.setToken,
      Api.TokenStorage.setDeviceFingerprint, Api.setItem, Ex.emptyStorage]
  · exact (C6_amended_storage.1 "abc123" "fp" ⟨true, none⟩ ⟨true, none, none⟩ ⟨true⟩
      Ex.emptyStorage (by simp [P2.validateAccessToken])).2
  · decide
  · exact C6_amended_storage.2.1 "CoolViewer1" "viewer_theme" Ex.emptyStorage (by decide)

/-- C9 counterexample: `script.js` `markTokenUsed` makes exactly one fetch
attempt on a transient network error and fails terminally without any retry —
refuting the claim that *each* of the three control-plane calls retries
transient network errors. -/
theorem C9_counterexample_no_retry :
    (SJ.markTokenUsed (SJ.MUOutcome.netErr "Failed to fetch")).attempts = 1 ∧
    (SJ.markTokenUsed (SJ.MUOutcome.netErr "Failed to fetch")).result =
      .error ⟨Api.ErrName.typeError, "Failed to fetch"⟩ ∧
    ¬ 2 ≤ (SJ.markTokenUsed (SJ.MUOutcome.netErr "Failed to fetch")).attempts := by
  refine ⟨rfl, rfl, ?_⟩
  simp [SJ.markTokenUsed]

/-- C9 amended: only `validateToken` retries transient network errors — three
total attempts with linearly increasing backoff delays (1000 ms, 2000 ms),
then terminal failure; `markTokenUsed` and `getM3uLinks` make a single attempt
and fail terminally on a network error. -/
theorem C9_amended_only_validate_retries :
    (∀ out : Nat → SJ.VOutcome, (∀ k, ∃ m, out k = SJ.VOutcome.netErr m) →
      (SJ.validateToken out 0).attempts = 3 ∧
      (SJ.validateToken out 0).delays = [1000, 2000] ∧
      ∃ e, (SJ.validateToken out 0).result = Except.error e) ∧
    (∀ m, SJ.markTokenUsed (SJ.MUOutcome.netErr m) =
      ⟨Except.error ⟨Api.ErrName.typeError, m⟩, 1⟩) ∧
    (∀ m, SJ.getM3uLinks (SJ.GMOutcome.netErr m) =
      ⟨Except.error ⟨Api.ErrName.typeError, m⟩, 1⟩) := by
  refine ⟨?_, fun m => rfl, fun m => rfl⟩
  intro out h
  obtain ⟨m0, h0⟩ := h 0
  obtain ⟨m1, h1⟩ := h 1
  obtain ⟨m2, h2⟩ := h 2
  rw [SJ.validateToken, h0]
  simp only [SJ.vtTry, SJ.retryable]
  rw [SJ.validateToken, h1]
  simp only [SJ.vtTry, SJ.retryable]
  rw [SJ.validateToken, h2]
  simp only [SJ.vtTry, SJ.retryable]
  simp

/-- Witness for the amended C9: every validate-token attempt fails at the
network level, giving 3 attempts with delays 1000 ms and 2000 ms. -/
theorem C9_amended_witness :
    (∀ k, ∃ m, Ex.envAllNet k = SJ.VOutcome.netErr m) ∧
    (SJ.validateToken Ex.envAllNet 0).attempts = 3 ∧
    (SJ.validateToken Ex.envAllNet 0).delays = [1000, 2000] := by
  have h : ∀ k, ∃ m, Ex.envAllNet k = SJ.VOutcome.netErr m :=
    fun k => ⟨"Failed to fetch", rfl⟩
  exact ⟨h, (C9_amended_only_validate_retries.1 Ex.envAllNet h).1,
    (C9_amended_only_validate_retries.1 Ex.envAllNet h).2.1⟩

/-- C5: when the URL carries a token and validate-token returns
`{valid:false, error:"expired"}`, initialization shows exactly `"expired"`
(or the variant's literal fallback when the error field is absent) and makes
no get-m3u-links request, opens no socket, and does not mark the token used —
in both the `script.js` and the `part_000` variants. -/
theorem C5_expired_token_terminal (env : SJ.Env) (tk : String) (mo : Option String)
    (htok : env.token = some tk)
    (hv : env.vOut 0 = SJ.VOutcome.jsonOk ⟨false, some "expired", mo⟩) :
    SJ.initializeAppRun env = ⟨["expired"], SJ.initialPlayer, false, false, false⟩ ∧
    (∀ mo2 : Option String,
      P0.validateTokenAndStart (P0.FOutcome.jsonOk ⟨false, some "expired", mo2⟩) =
        ⟨some "expired", false, false, false⟩) ∧
    (∀ env2 : SJ.Env, ∀ tk2, env2.token = some tk2 →
      env2.vOut 0 = SJ.VOutcome.jsonOk ⟨false, none, none⟩ →
      SJ.initializeAppRun env2 =
        ⟨["Token tidak valid atau sudah kedaluwarsa"], SJ.initialPlayer, false, false, false⟩) ∧
    P0.validateTokenAndStart (P0.FOutcome.jsonOk ⟨false, none, none⟩) =
      ⟨some "Token tidak valid.", false, false, false⟩ := by
  have hr : SJ.retryable ⟨Api.ErrName.tokenValidationError, "expired"⟩ = false := by decide
  have hr2 : SJ.retryable
      ⟨Api.ErrName.tokenValidationError, "Token tidak valid atau sudah kedaluwarsa"⟩
      = false := by decide
  refine ⟨?_, ?_, ?_, ?_⟩
  · rw [SJ.initializeAppRun, htok, SJ.validateToken, hv]
    simp [SJ.vtTry, SJ.jsOr, hr]
  · intro mo2
    simp [P0.validateTokenAndStart, P0.fetchJSONValidate, SJ.jsOr]
  · intro env2 tk2 htok2 hv2
    rw [SJ.initializeAppRun, htok2, SJ.validateToken, hv2]
    simp [SJ.vtTry, SJ.jsOr, hr2]
  · simp [P0.validateTokenAndStart, P0.fetchJSONValidate, SJ.jsOr]

/-- Witness for C5 at the concrete expired-token environment. -/
theorem C5_witness :
    Ex.envExpired.token = some "abc123" ∧
    Ex.envExpired.vOut 0 = SJ.VOutcome.jsonOk ⟨false, some "expired", none⟩ ∧
    SJ.initializeAppRun Ex.envExpired =
      ⟨["expired"], SJ.initialPlayer, false, false, false⟩ :=
  ⟨rfl, rfl, (C5_expired_token_terminal Ex.envExpired "abc123" none rfl rfl).1⟩

theorem SJ.precedes_append_left (s t : List SJ.PEv) (a b : SJ.PEv)
    (h : SJ.Precedes t a b) : SJ.Precedes (s ++ t) a b := by
  obtain ⟨t1, t2, t3, rfl⟩ := h
  exact ⟨s ++ t1, t2, t3, by simp⟩

theorem SJ.precedes_mem_left {t : List SJ.PEv} {a b : SJ.PEv}
    (h : SJ.Precedes t a b) : a ∈ t := by
  obtain ⟨t1, t2, t3, rfl⟩ := h
  simp

theorem SJ.attemptTrace_destroy_before_load :
    ∀ (n i j : Nat) (h : Option Nat), j + 1 < n →
      SJ.Precedes (SJ.attemptTrace h i n) (SJ.PEv.destroy (i + j)) (SJ.PEv.load (i + j + 1)) := by
  intro n
  induction n with
  | zero =>
    intro i j h hj
    omega
  | succ m ih =>
    intro i j h hj
    cases j with
    | zero =>
      obtain ⟨m', rfl⟩ : ∃ m', m = m' + 1 := ⟨m - 1, by omega⟩
      refine ⟨(match h with
        | some j => [SJ.PEv.destroy j]
        | none => []) ++ [SJ.PEv.load i], [],
        SJ.attemptTrace (some (i + 1)) (i + 2) m', ?_⟩
      simp [SJ.attemptTrace]
    | succ k =>
      have hk : k + 1 < m := by omega
      have hrec := ih (i + 1) k (some i) hk
      have e1 : i + 1 + k = i + (k + 1) := by omega
      rw [e1] at hrec
      have := SJ.precedes_append_left ((match h with
        | some j => [SJ.PEv.destroy j]
        | none => []) ++ [SJ.PEv.load i]) _ _ _ hrec
      simpa [SJ.attemptTrace, List.append_assoc] using this

theorem SJ.failover_fatal_prefix :
    ∀ (ps : List (SJ.Link × SJ.COutcome)) (lnk : SJ.Link) (st : SJ.PlayerState) (i : Nat),
      (∀ p ∈ ps, ∃ ty, p.2 = SJ.COutcome.fatal ty) →
      ∃ st', SJ.loadStreamWithFailover st i (ps ++ [(lnk, SJ.COutcome.playing)]) =
          SJ.FailoverResult.ok st' ∧
        st'.hls = some (i + ps.length) ∧
        st'.currentM3uLink = some lnk.url ∧
        st'.trace = st.trace ++ SJ.attemptTrace st.hls i (ps.length + 1) := by
  intro ps
  induction ps with
  | nil =>
    intro lnk st i _
    refine ⟨_, rfl, ?_, rfl, ?_⟩
    · simp [SJ.initHlsPlayer]
    · simp [SJ.initHlsPlayer, SJ.attemptTrace]
  | cons p ps ih =>
    intro lnk st i hfatal
    obtain ⟨l0, o0⟩ := p
    obtain ⟨ty0, hty0⟩ := hfatal (l0, o0) (by simp)
    simp only at hty0
    subst hty0
    have hne : (ps ++ [(lnk, SJ.COutcome.playing)]).isEmpty = false := by
      simp [List.isEmpty_iff]
    rw [List.cons_append, SJ.loadStreamWithFailover]
    simp only [hne, Bool.false_eq_true, if_false]
    obtain ⟨st', hrun, hhls, hurl, htrace⟩ :=
      ih lnk _ (i + 1) (fun q hq => hfatal q (by simp [hq]))
    refine ⟨st', hrun, ?_, hurl, ?_⟩
    · rw [hhls]
      congr 1
      simp
      omega
    · rw [htrace]
      simp [SJ.initHlsPlayer, SJ.attemptTrace, List.append_assoc]

theorem SJ.failover_all_fatal :
    ∀ (ps : List (SJ.Link × SJ.COutcome)) (st : SJ.PlayerState) (i : Nat),
      ps ≠ [] → (∀ p ∈ ps, ∃ ty, p.2 = SJ.COutcome.fatal ty) →
      ∃ st', SJ.loadStreamWithFailover st i ps = SJ.FailoverResult.err SJ.termMsg st' ∧
        st'.shownErrors.length = st.shownErrors.length + ps.length ∧
        st'.hls = some (i + ps.length - 1) := by
  intro ps
  induction ps with
  | nil => intro st i hne _; exact absurd rfl hne
  | cons p ps ih =>
    intro st i _ hfatal
    obtain ⟨l0, o0⟩ := p
    obtain ⟨ty0, hty0⟩ := hfatal (l0, o0) (by simp)
    simp only at hty0
    subst hty0
    rw [SJ.loadStreamWithFailover]
    by_cases hps : ps = []
    · subst hps
      refine ⟨_, rfl, ?_, ?_⟩
      · simp [SJ.initHlsPlayer]
      · simp [SJ.initHlsPlayer]
    · have hne2 : ps.isEmpty = false := by simp [List.isEmpty_iff, hps]
      simp only [hne2, Bool.false_eq_true, if_false]
      obtain ⟨st', hrun, hlen, hhls⟩ :=
        ih _ (i + 1) hps (fun q hq => hfatal q (by simp [hq]))
      refine ⟨st', hrun, ?_, ?_⟩
      · rw [hlen]
        simp [SJ.initHlsPlayer]
        omega
      · rw [hhls]
        congr 1
        have : ps.length ≠ 0 := by simp [hps]
        simp

theorem P1.failover1_all_fatal :
    ∀ (ps : List (SJ.Link × P1.C1Outcome)) (st : P1.Player1) (i : Nat),
      ps ≠ [] → (∀ p ∈ ps, ∃ ty, p.2 = P1.C1Outcome.fatal ty) →
      (P1.loadStreamWithFailover st i ps).shownErrors.length
          = st.shownErrors.length + ps.length ∧
      (P1.loadStreamWithFailover st i ps).playButton = true ∧
      (P1.loadStreamWithFailover st i ps).hls = some (i + ps.length - 1) := by
  intro ps
  induction ps with
  | nil => intro st i hne _; exact absurd rfl hne
  | cons p ps ih =>
    intro st i _ hfatal
    obtain ⟨l0, o0⟩ := p
    obtain ⟨ty0, hty0⟩ := hfatal (l0, o0) (by simp)
    simp only at hty0
    subst hty0
    rw [P1.loadStreamWithFailover]
    by_cases hps : ps = []
    · subst hps
      refine ⟨by simp, by simp, by simp⟩
    · have hne2 : ps.isEmpty = false := by simp [List.isEmpty_iff, hps]
      simp only [hne2, Bool.false_eq_true, if_false]
      obtain ⟨hlen, hbtn, hhls⟩ := ih _ (i + 1) hps (fun q hq => hfatal q (by simp [hq]))
      refine ⟨?_, hbtn, ?_⟩
      · rw [hlen]
        simp
        omega
      · rw [hhls]
        congr 1
        have : ps.length ≠ 0 := by simp [hps]
        simp

/-- C1: for a non-empty candidate list in which candidates `0..N-2` fail with
fatal errors and candidate `N-1` reaches the playing state,
`loadStreamWithFailover` returns normally with exactly the last candidate
active: `currentM3uLink` is its url, the attached session is session `N-1`
(no session of an earlier candidate remains attached), and each earlier
session `j` is destroyed before candidate `j+1`'s load. -/
theorem C1_failover_last_candidate_active
    (ps : List (SJ.Link × SJ.COutcome)) (lnk : SJ.Link)
    (hfatal : ∀ p ∈ ps, ∃ ty, p.2 = SJ.COutcome.fatal ty) :
    ∃ st, SJ.loadStreamWithFailover SJ.initialPlayer 0
        (ps ++ [(lnk, SJ.COutcome.playing)]) = SJ.FailoverResult.ok st ∧
      st.currentM3uLink = some lnk.url ∧
      st.hls = some ps.length ∧
      (∀ j, j < ps.length →
        SJ.Precedes st.trace (SJ.PEv.destroy j) (SJ.PEv.load (j + 1))) ∧
      (∀ j, j < ps.length → SJ.PEv.destroy j ∈ st.trace) := by
  obtain ⟨st, hrun, hhls, hurl, htrace⟩ :=
    SJ.failover_fatal_prefix ps lnk SJ.initialPlayer 0 hfatal
  have htr : st.trace = SJ.attemptTrace none 0 (ps.length + 1) := by
    rw [htrace]
    rfl
  have hord : ∀ j, j < ps.length →
      SJ.Precedes st.trace (SJ.PEv.destroy j) (SJ.PEv.load (j + 1)) := by
    intro j hj
    rw [htr]
    have := SJ.attemptTrace_destroy_before_load (ps.length + 1) 0 j none (by omega)
    simpa using this
  refine ⟨st, hrun, hurl, by simpa using hhls, hord, fun j hj => ?_⟩
  exact SJ.precedes_mem_left (hord j hj)

/-- Witness for C1: one fatally failing candidate followed by one that plays. -/
theorem C1_witness :
    (∀ p ∈ Ex.psOneFatal, ∃ ty, p.2 = SJ.COutcome.fatal ty) ∧
    (∃ st, SJ.loadStreamWithFailover SJ.initialPlayer 0
        (Ex.psOneFatal ++ [(Ex.linkB, SJ.COutcome.playing)]) = SJ.FailoverResult.ok st ∧
      st.currentM3uLink = some Ex.linkB.url ∧
      st.hls = some Ex.psOneFatal.length ∧
      (∀ j, j < Ex.psOneFatal.length →
        SJ.Precedes st.trace (SJ.PEv.destroy j) (SJ.PEv.load (j + 1))) ∧
      (∀ j, j < Ex.psOneFatal.length → SJ.PEv.destroy j ∈ st.trace)) := by
  have hf : ∀ p ∈ Ex.psOneFatal, ∃ ty, p.2 = SJ.COutcome.fatal ty := by
    intro p hp
    simp [Ex.psOneFatal] at hp
    rw [hp]
    exact ⟨SJ.HlsErrTy.network, rfl⟩
  exact ⟨hf, C1_failover_last_candidate_active Ex.psOneFatal Ex.linkB hf⟩

/-- C2 counterexample: with a single candidate that fails with a fatal network
error (and a healthy control plane), `initializeApp` surfaces TWO error
messages — the HLS handler's network message plus the sequencer's terminal
message — not exactly one, and the failed candidate's decoding session is
still attached to the video element (`hls = some 0`, not destroyed). -/
theorem C2_counterexample_two_errors_and_attached_session :
    (SJ.initializeAppRun Ex.envOneFatal).shownErrors =
      ["❌ Kesalahan jaringan. Periksa koneksi internet Anda dan coba lagi.",
       "Semua stream gagal dimuat. Silakan coba lagi nanti."] ∧
    (SJ.initializeAppRun Ex.envOneFatal).shownErrors.length ≠ 1 ∧
    (SJ.initializeAppRun Ex.envOneFatal).player.hls = some 0 ∧
    (SJ.initializeAppRun Ex.envOneFatal).player.hls ≠ none := by
  have h : SJ.initializeAppRun Ex.envOneFatal =
      ⟨["❌ Kesalahan jaringan. Periksa koneksi internet Anda dan coba lagi.",
        "Semua stream gagal dimuat. Silakan coba lagi nanti."],
       ⟨some 0, some "http://a.example/live.m3u8",
        ["❌ Kesalahan jaringan. Periksa koneksi internet Anda dan coba lagi."],
        [SJ.PEv.load 0]⟩, true, true, false⟩ := by
    rw [SJ.initializeAppRun]
    simp only [Ex.envOneFatal]
    rw [SJ.validateToken]
    simp [SJ.vtTry, SJ.markTokenUsed, SJ.getM3uLinks, SJ.loadStreamWithFailover,
      SJ.initHlsPlayer, SJ.initialPlayer, SJ.hlsErrorMessage, SJ.termMsg]
  rw [h]
  refine ⟨rfl, by simp, rfl, by simp⟩

/-- C2 amended: when every candidate fails fatally, the `script.js` sequencer
raises exactly one terminal error, which `initializeApp` surfaces as the last
message — but the total number of surfaced error messages is `N + 1` (one per
fatal candidate from the HLS error handler plus the terminal one), the last
candidate's decoding session remains attached to the video element, and no
socket is opened; the `part_001` variant surfaces no terminal error at all —
its sequencer returns normally and shows the play button. -/
theorem C2_amended_error_surfacing (env : SJ.Env) (tk : String) (ls : List SJ.Link)
    (tys : List SJ.HlsErrTy)
    (htok : env.token = some tk)
    (hv : env.vOut 0 = SJ.VOutcome.jsonOk ⟨true, none, none⟩)
    (hmu : env.muOut = SJ.MUOutcome.body true none)
    (hgm : env.gmOut = SJ.GMOutcome.body true (some ls))
    (hlo : env.linkOutcomes = tys.map SJ.COutcome.fatal)
    (hne : ls ≠ []) (hlen : tys.length = ls.length) :
    (SJ.initializeAppRun env).shownErrors.length = ls.length + 1 ∧
    (SJ.initializeAppRun env).shownErrors.getLast? = some SJ.termMsg ∧
    (SJ.initializeAppRun env).player.hls = some (ls.length - 1) ∧
    (SJ.initializeAppRun env).socketOpened = false ∧
    (P1.loadStreamWithFailover P1.initialPlayer1 0
        (ls.zip (tys.map P1.C1Outcome.fatal))).shownErrors.length = ls.length ∧
    (P1.loadStreamWithFailover P1.initialPlayer1 0
        (ls.zip (tys.map P1.C1Outcome.fatal))).playButton = true := by
  have hzlen : (ls.zip (tys.map SJ.COutcome.fatal)).length = ls.length := by
    simp [hlen]
  have hzne : ls.zip (tys.map SJ.COutcome.fatal) ≠ [] := by
    intro hcon
    have := congrArg List.length hcon
    rw [hzlen] at this
    simp at this
    exact hne this
  have hzfatal : ∀ p ∈ ls.zip (tys.map SJ.COutcome.fatal),
      ∃ ty, p.2 = SJ.COutcome.fatal ty := by
    intro p hp
    have := (List.of_mem_zip hp).2
    simp at this
    obtain ⟨ty, _, hty⟩ := this
    exact ⟨ty, hty.symm⟩
  obtain ⟨st', hrun, hlen', hhls⟩ :=
    SJ.failover_all_fatal (ls.zip (tys.map SJ.COutcome.fatal))
      SJ.initialPlayer 0 hzne hzfatal
  have happ : SJ.initializeAppRun env =
      ⟨st'.shownErrors ++ [SJ.termMsg], st', true, true, false⟩ := by
    rw [SJ.initializeAppRun, htok, SJ.validateToken, hv, hmu, hgm]
    simp only [SJ.vtTry, SJ.markTokenUsed, SJ.getM3uLinks]
    have hlsne : ls.length ≠ 0 := by simp [hne]
    simp only [if_pos (And.intro trivial hlsne), hlo]
    rw [hrun]
    simp
  -- part_001 side
  have hz1len : (ls.zip (tys.map P1.C1Outcome.fatal)).length = ls.length := by
    simp [hlen]
  have hz1ne : ls.zip (tys.map P1.C1Outcome.fatal) ≠ [] := by
    intro hcon
    have := congrArg List.length hcon
    rw [hz1len] at this
    simp at this
    exact hne this
  have hz1fatal : ∀ p ∈ ls.zip (tys.map P1.C1Outcome.fatal),
      ∃ ty, p.2 = P1.C1Outcome.fatal ty := by
    intro p hp
    have := (List.of_mem_zip hp).2
    simp at this
    obtain ⟨ty, _, hty⟩ := this
    exact ⟨ty, hty.symm⟩
  obtain ⟨h1len, h1btn, _⟩ :=
    P1.failover1_all_fatal (ls.zip (tys.map P1.C1Outcome.fatal))
      P1.initialPlayer1 0 hz1ne hz1fatal
  rw [happ]
  refine ⟨?_, ?_, ?_, rfl, ?_, h1btn⟩
  · simp [hlen', SJ.initialPlayer, hzlen]
  · simp
  · simp [hhls, hzlen]
  · rw [h1len, hz1len]
    simp [P1.initialPlayer1]

/-- Witness for the amended C2 at the one-fatal-candidate environment. -/
theorem C2_amended_witness :
    Ex.envOneFatal.token = some "tok" ∧
    ([Ex.linkA] ≠ ([] : List SJ.Link)) ∧
    (SJ.initializeAppRun Ex.envOneFatal).shownErrors.length = 2 ∧
    (SJ.initializeAppRun Ex.envOneFatal).shownErrors.getLast? = some SJ.termMsg ∧
    (SJ.initializeAppRun Ex.envOneFatal).socketOpened = false := by
  have h := C2_amended_error_surfacing Ex.envOneFatal "tok" [Ex.linkA]
    [SJ.HlsErrTy.network] rfl rfl rfl rfl rfl (by simp) rfl
  exact ⟨rfl, by simp, by simpa using h.1, h.2.1, h.2.2.2.1⟩

theorem P0.hasConn_append (t1 t2 : List P0.TEv) :
    P0.hasConn (t1 ++ t2) = (P0.hasConn t1 || P0.hasConn t2) := by
  induction t1 with
  | nil => simp [P0.hasConn]
  | cons e rest ih => cases e <;> simp [P0.hasConn, ih]

theorem P0.hasJoined_append (t1 t2 : List P0.TEv) :
    P0.hasJoined (t1 ++ t2) = (P0.hasJoined t1 || P0.hasJoined t2) := by
  induction t1 with
  | nil => simp [P0.hasJoined]
  | cons e rest ih => cases e <;> simp [P0.hasJoined, ih]

theorem P0.scanOK_append :
    ∀ (t1 : List P0.TEv) (c j : Bool) (t2 : List P0.TEv),
      P0.scanOK c j (t1 ++ t2) =
        (P0.scanOK c j t1 &&
          P0.scanOK (c || P0.hasConn t1) (j || P0.hasJoined t1) t2) := by
  intro t1
  induction t1 with
  | nil =>
    intro c j t2
    simp [P0.scanOK, P0.hasConn, P0.hasJoined]
  | cons e rest ih =>
    intro c j t2
    cases e <;>
      simp [P0.scanOK, P0.hasConn, P0.hasJoined, ih, Bool.and_assoc]

theorem P0.step_inv (a : P0.App) (e : P0.Ev)
    (h1 : a.live = a.heartbeatInterval.toList)
    (h2 : a.heartbeatInterval.isSome = true → P0.hasJoined a.trace = true)
    (h3 : P0.scanOK false false a.trace = true) :
    (P0.step a e).live = (P0.step a e).heartbeatInterval.toList ∧
    ((P0.step a e).heartbeatInterval.isSome = true →
      P0.hasJoined (P0.step a e).trace = true) ∧
    P0.scanOK false false (P0.step a e).trace = true := by
  cases e with
  | connect =>
    refine ⟨h1, fun hs => ?_, ?_⟩
    · simp only [P0.step] at hs ⊢
      rw [P0.hasJoined_append]
      simp [P0.hasJoined, h2 hs]
    · simp [P0.step, P0.scanOK_append, h3, P0.scanOK]
  | disconnect =>
    cases hfi : a.heartbeatInterval with
    | some id =>
      refine ⟨?_, ?_, ?_⟩ <;>
        simp [P0.step, P0.clearHeartbeat, hfi, h1, P0.scanOK_append, h3, P0.scanOK]
    | none =>
      refine ⟨?_, ?_, ?_⟩ <;>
        simp [P0.step, P0.clearHeartbeat, hfi, h1, P0.scanOK_append, h3, P0.scanOK]
  | joined =>
    cases hfi : a.heartbeatInterval with
    | some id =>
      refine ⟨?_, fun _ => ?_, ?_⟩ <;>
        simp [P0.step, P0.startHeartbeat, P0.clearHeartbeat, P0.setIntervalHb, hfi, h1,
          P0.scanOK_append, h3, P0.scanOK, P0.hasJoined_append, P0.hasJoined]
    | none =>
      refine ⟨?_, fun _ => ?_, ?_⟩ <;>
        simp [P0.step, P0.startHeartbeat, P0.clearHeartbeat, P0.setIntervalHb, hfi, h1,
          P0.scanOK_append, h3, P0.scanOK, P0.hasJoined_append, P0.hasJoined]
  | hidden =>
    cases hfi : a.heartbeatInterval with
    | some id =>
      refine ⟨?_, fun _ => ?_, ?_⟩ <;>
        simp [P0.step, P0.handlePageHidden, P0.setIntervalHb, hfi, h1, h3, h2]
    | none =>
      exact ⟨by simp [P0.step, P0.handlePageHidden, hfi, h1], by simp [P0.step, P0.handlePageHidden, hfi, h2], by simp [P0.step, P0.handlePageHidden, hfi, h3]⟩
  | visible =>
    cases hfi : a.heartbeatInterval with
    | some id =>
      refine ⟨?_, fun _ => ?_, ?_⟩ <;>
        simp [P0.step, P0.handlePageVisible, P0.startHeartbeat, P0.clearHeartbeat,
          P0.setIntervalHb, hfi, h1, h3, h2]
    | none =>
      exact ⟨by simp [P0.step, P0.handlePageVisible, hfi, h1], by simp [P0.step, P0.handlePageVisible, hfi, h2], by simp [P0.step, P0.handlePageVisible, hfi, h3]⟩
  | reconnectWS =>
    cases hfi : a.heartbeatInterval with
    | some id =>
      refine ⟨?_, ?_, ?_⟩ <;>
        simp [P0.step, P0.clearHeartbeat, hfi, h1, P0.scanOK_append, h3, P0.scanOK]
    | none =>
      refine ⟨?_, ?_, ?_⟩ <;>
        simp [P0.step, P0.clearHeartbeat, hfi, h1, P0.scanOK_append, h3, P0.scanOK]
  | tick id =>
    by_cases hc : id ∈ a.live ∧ a.isConnected = true
    · have hjoined : P0.hasJoined a.trace = true := by
        apply h2
        cases hfi : a.heartbeatInterval with
        | some x => rfl
        | none =>
          rw [hfi] at h1
          simp [Option.toList] at h1
          rw [h1] at hc
          simp at hc
      refine ⟨?_, fun hs => ?_, ?_⟩
      · simp only [P0.step, if_pos hc]
        exact h1
      · simp only [P0.step, if_pos hc] at hs ⊢
        rw [P0.hasJoined_append]
        simp [hjoined]
      · simp only [P0.step, if_pos hc]
        simp [P0.scanOK_append, h3, P0.scanOK, hjoined]
    · simp only [P0.step, if_neg hc]
      exact ⟨h1, h2, h3⟩

theorem P0.run_preserves_inv :
    ∀ (evs : List P0.Ev) (a : P0.App),
      a.live = a.heartbeatInterval.toList →
      (a.heartbeatInterval.isSome = true → P0.hasJoined a.trace = true) →
      P0.scanOK false false a.trace = true →
      (P0.run a evs).live = (P0.run a evs).heartbeatInterval.toList ∧
      ((P0.run a evs).heartbeatInterval.isSome = true →
        P0.hasJoined (P0.run a evs).trace = true) ∧
      P0.scanOK false false (P0.run a evs).trace = true := by
  intro evs
  induction evs with
  | nil => intro a h1 h2 h3; exact ⟨h1, h2, h3⟩
  | cons e rest ih =>
    intro a h1 h2 h3
    obtain ⟨g1, g2, g3⟩ := P0.step_inv a e h1 h2 h3
    exact ih (P0.step a e) g1 g2 g3

theorem P0.step_disconnect_live_nil (a : P0.App)
    (h1 : a.live = a.heartbeatInterval.toList) :
    (P0.step a P0.Ev.disconnect).live = [] := by
  cases hfi : a.heartbeatInterval with
  | some id => simp [P0.step, P0.clearHeartbeat, hfi, h1]
  | none => simp [P0.step, P0.clearHeartbeat, hfi, h1]

theorem SJ.scanJoinOnly_append :
    ∀ (t1 : List P0.TEv) (c : Bool) (t2 : List P0.TEv),
      SJ.scanJoinOnly c (t1 ++ t2) =
        (SJ.scanJoinOnly c t1 && SJ.scanJoinOnly (c || P0.hasConn t1) t2) := by
  intro t1
  induction t1 with
  | nil =>
    intro c t2
    simp [SJ.scanJoinOnly, P0.hasConn]
  | cons e rest ih =>
    intro c t2
    cases e <;>
      simp [SJ.scanJoinOnly, P0.hasConn, ih, Bool.and_assoc]

theorem SJ.runSocket_scanJoin :
    ∀ (evs : List SJ.SockEv) (s : SJ.SockState),
      SJ.scanJoinOnly false s.trace = true →
      SJ.scanJoinOnly false (SJ.runSocket s evs).trace = true := by
  intro evs
  induction evs with
  | nil => intro s hs; exact hs
  | cons e rest ih =>
    intro s hs
    apply ih
    cases e with
    | initSocket => simpa [SJ.sockStep] using hs
    | connect => simp [SJ.sockStep, SJ.scanJoinOnly_append, hs, SJ.scanJoinOnly]
    | disconnect => simp [SJ.sockStep, SJ.scanJoinOnly_append, hs, SJ.scanJoinOnly]
    | tick id =>
      by_cases hc : id ∈ s.live ∧ s.connected = true
      · simp [SJ.sockStep, hc, SJ.scanJoinOnly_append, hs, SJ.scanJoinOnly]
      · simpa [SJ.sockStep, hc] using hs

/-- C3 counterexample: in `script.js`, after `initSocket()` starts the
heartbeat interval, a socket disconnect leaves that interval alive (the
`disconnect` handler only updates the status display) — refuting the claim
that disconnecting clears the heartbeat timer without starting another. -/
theorem C3_counterexample_disconnect_keeps_timer :
    (SJ.runSocket SJ.SockState.init
      [SJ.SockEv.initSocket, SJ.SockEv.disconnect]).live = [0] ∧
    (SJ.runSocket SJ.SockState.init
      [SJ.SockEv.initSocket, SJ.SockEv.disconnect]).live ≠ [] ∧
    (SJ.runSocket SJ.SockState.init
      [SJ.SockEv.initSocket, SJ.SockEv.disconnect]).connected = false := by
  refine ⟨rfl, ?_, rfl⟩
  simp [SJ.runSocket, SJ.sockStep, SJ.SockState.init]

/-- C3 amended: in the `part_000` variant, across every sequence of
visibility-change, connect/disconnect/reconnect, join and timer events, at
most one heartbeat interval timer is alive, and an event sequence ending in a
disconnect leaves no heartbeat timer alive; in the `script.js` variant the
heartbeat interval started by `initSocket` survives a disconnect (only its
emission is guarded by `socket.connected`). -/
theorem C3_amended_single_timer :
    (∀ evs : List P0.Ev, (P0.run P0.App.init evs).live.length ≤ 1) ∧
    (∀ evs : List P0.Ev,
      (P0.run P0.App.init (evs ++ [P0.Ev.disconnect])).live = []) ∧
    (SJ.runSocket SJ.SockState.init
      [SJ.SockEv.initSocket, SJ.SockEv.disconnect]).live.length = 1 := by
  have inv := fun evs => P0.run_preserves_inv evs P0.App.init rfl
    (by intro h; simp [P0.App.init] at h) rfl
  refine ⟨fun evs => ?_, fun evs => ?_, rfl⟩
  · obtain ⟨g1, _, _⟩ := inv evs
    rw [g1]
    cases (P0.run P0.App.init evs).heartbeatInterval <;> simp
  · have hsplit : P0.run P0.App.init (evs ++ [P0.Ev.disconnect]) =
        P0.step (P0.run P0.App.init evs) P0.Ev.disconnect := by
      simp [P0.run, List.foldl_append, P0.step]
    rw [hsplit]
    obtain ⟨g1, _, _⟩ := inv evs
    exact P0.step_disconnect_live_nil _ g1

/-- C4 counterexample: in `script.js`, the heartbeat interval is started by
`initSocket` itself; once the socket connects, a timer tick emits a heartbeat
although no `joined_stream` acknowledgment was ever received (the script has
no such handler) — refuting the claim that no heartbeat is emitted before the
join acknowledgment and that the timer is started only upon it. -/
theorem C4_counterexample_heartbeat_before_ack :
    (SJ.runSocket SJ.SockState.init
      [SJ.SockEv.initSocket, SJ.SockEv.connect, SJ.SockEv.tick 0]).trace =
      [P0.TEv.connected, P0.TEv.joinEmitted, P0.TEv.heartbeatEmitted] ∧
    P0.hasJoined (SJ.runSocket SJ.SockState.init
      [SJ.SockEv.initSocket, SJ.SockEv.connect, SJ.SockEv.tick 0]).trace = false ∧
    P0.scanOK false false (SJ.runSocket SJ.SockState.init
      [SJ.SockEv.initSocket, SJ.SockEv.connect, SJ.SockEv.tick 0]).trace = false := by
  refine ⟨?_, ?_, ?_⟩ <;>
    simp [SJ.runSocket, SJ.sockStep, SJ.SockState.init, P0.hasJoined, P0.scanOK]

/-- C4 amended: in the `part_000` variant, over every event sequence,
`join_stream` is emitted only after a transport connect and a heartbeat is
emitted only after the `joined_stream` acknowledgment (the timer is started
only by that handler); in the `script.js` variant the join emission still
happens only after connect, but heartbeats are emitted whenever the socket is
connected, with no join-acknowledgment gating. -/
theorem C4_amended_ordering :
    (∀ evs : List P0.Ev,
      P0.scanOK false false (P0.run P0.App.init evs).trace = true) ∧
    (∀ evs : List SJ.SockEv,
      SJ.scanJoinOnly false (SJ.runSocket SJ.SockState.init evs).trace = true) := by
  constructor
  · intro evs
    exact (P0.run_preserves_inv evs P0.App.init rfl
      (by intro h; simp [P0.App.init] at h) rfl).2.2
  · intro evs
    exact SJ.runSocket_scanJoin evs SJ.SockState.init rfl
